import Mathlib

/-!
# Verification of the employee-management HTTP service

A shallow embedding of `src/employees-details/server.js`: an Express
application over two MongoDB collections (`employees` and `company_list`).
Each HTTP handler becomes a pure function from the database state (plus
the nondeterministic outcomes of its store calls, made explicit
parameters) to a response and a new state.  Timestamps (`new Date()`)
are modelled as natural numbers supplied by the caller; the
store-assigned `_id` is a counter held in the state.
-/

namespace EmployeeService

/-- Outcome of a single store insert call, as observed by the handler:
the insert was applied and acknowledged (`ok`), it was not applied and the
returned result carries `acknowledged: false` (`notAck`), or the call
threw an exception without applying the write (`threw`). -/
inductive InsertOutcome where
  | ok
  | notAck
  | threw
deriving Repr, DecidableEq

/-- Outcome of a store read (`find({}).toArray()`): it returned, or threw. -/
inductive FetchOutcome where
  | ok
  | threw
deriving Repr, DecidableEq

/-- An Employee document in the `employees` collection.  `id` models the
store-assigned `_id`; `addedDate` is optional because not every insert in
the source sets it (the seeding path omits it). -/
structure Employee where
  id : Nat
  name : String
  email : String
  department : Option String
  addedDate : Option Nat
deriving Repr, DecidableEq

/-- A document in the `company_list` collection: `{ name, addedAt }`. -/
structure CompanyListEntry where
  name : String
  addedAt : Nat
deriving Repr, DecidableEq

/-- The JSON body of a POST /employees request after
`const { name, email, department } = req.body`: each field is either
absent (`none`, i.e. `undefined`) or a string. -/
structure ReqBody where
  name : Option String
  email : Option String
  department : Option String
deriving Repr, DecidableEq

/-- JavaScript truthiness of a destructured string field: `!x` is true
when the field is `undefined` or the empty string. -/
def truthy : Option String → Bool
  | none => false
  | some s => s != ""

/-- The observable state of the service: whether the global `db` handle
is set, the contents of the two collections, and the next `_id` the store
will assign. -/
structure DbState where
  connected : Bool
  employees : List Employee
  companyList : List CompanyListEntry
  nextId : Nat
deriving Repr, DecidableEq

/-- Response of the POST /employees handler: HTTP status, the employee
object returned in the 201 body (if any), and the state afterwards. -/
structure PostResponse where
  status : Nat
  employee : Option Employee
  state : DbState
deriving Repr, DecidableEq

/-- The POST /employees handler (server.js lines 73-108).  `t` is the
wall-clock time read by `new Date()`; `out1` and `out2` are the outcomes
of the primary and the mirror insert.  The `catch` in the source wraps
both inserts, so an exception from the mirror insert yields 500 with the
primary insert already applied. -/
def postEmployees (st : DbState) (body : ReqBody) (t : Nat)
    (out1 out2 : InsertOutcome) : PostResponse :=
  if !st.connected then ⟨503, none, st⟩
  else if !(truthy body.name && truthy body.email) then ⟨400, none, st⟩
  else
    match out1 with
    | .threw => ⟨500, none, st⟩
    | .notAck => ⟨500, none, st⟩
    | .ok =>
      let newEmployee : Employee :=
        ⟨st.nextId, body.name.getD "", body.email.getD "", body.department, some t⟩
      let st1 : DbState :=
        ⟨st.connected, st.employees ++ [newEmployee], st.companyList, st.nextId + 1⟩
      match out2 with
      | .threw => ⟨500, none, st1⟩
      | .notAck => ⟨201, some newEmployee, st1⟩
      | .ok =>
        ⟨201, some newEmployee,
          ⟨st1.connected, st1.employees,
            st1.companyList ++ [⟨body.name.getD "", t⟩], st1.nextId⟩⟩

/-- Response of a list endpoint: HTTP status, the JSON array returned,
and the state afterwards. -/
structure ListResponse (α : Type) where
  status : Nat
  data : List α
  state : DbState
deriving Repr, DecidableEq

/-- The GET /employees handler (server.js lines 112-123). -/
def getEmployees (st : DbState) (fo : FetchOutcome) : ListResponse Employee :=
  if !st.connected then ⟨503, [], st⟩
  else
    match fo with
    | .threw => ⟨500, [], st⟩
    | .ok => ⟨200, st.employees, st⟩

/-- The GET /company-list handler (server.js lines 126-137). -/
def getCompanyList (st : DbState) (fo : FetchOutcome) : ListResponse CompanyListEntry :=
  if !st.connected then ⟨503, [], st⟩
  else
    match fo with
    | .threw => ⟨500, [], st⟩
    | .ok => ⟨200, st.companyList, st⟩

/-- The GET /health handler (server.js lines 58-64): status depends only
on whether the `db` handle is set; no store call is made. -/
def health (st : DbState) : Nat × DbState :=
  if st.connected then (200, st) else (503, st)

/-- The GET /greet handler (server.js lines 67-70):
`req.query.name || 'World'`, so an absent or empty `name` falls back to
`"World"`. -/
def greet (q : Option String) : Nat × String :=
  let n : String :=
    match q with
    | none => "World"
    | some s => if s = "" then "World" else s
  (200, "Hello, " ++ n ++ "!")

/-- The two fixed sample Employees inserted by seeding (server.js lines
31-34).  Note the source objects carry no `addedDate` field. -/
def seedEmployees (nid : Nat) : List Employee :=
  [⟨nid, "Charlie Brown", "charlie.b@voiceowl.com", some "HR", none⟩,
   ⟨nid + 1, "Diana Prince", "diana.p@voiceowl.com", some "Sales", none⟩]

/-- The two company_list documents inserted by seeding (server.js lines
37-40). -/
def seedEntries (t : Nat) : List CompanyListEntry :=
  [⟨"Charlie Brown", t⟩, ⟨"Diana Prince", t⟩]

/-- Result of the startup sequencer: either `process.exit(1)` was called
(carrying the store state at that moment) or the service is running. -/
inductive StartupResult where
  | exited (st : DbState)
  | running (st : DbState)
deriving Repr, DecidableEq

/-- Whether the startup sequencer called `process.exit(1)`. -/
def StartupResult.isExited : StartupResult → Bool
  | .exited _ => true
  | .running _ => false

/-- The state carried by a `StartupResult`. -/
def StartupResult.state : StartupResult → DbState
  | .exited st => st
  | .running st => st

/-- The startup sequencer `connectToMongo` (server.js lines 16-49).
`connectOk` is whether `client.connect()` succeeds; `countThrows` is
whether the `countDocuments()` call throws; `seedEmpThrows` and
`seedMirrorThrows` are whether the two seeding `insertMany` calls throw.
The single `catch` wraps connection, the count AND seeding, and its
handler calls `process.exit(1)`.  The `db` handle is assigned right
after the connection succeeds, so a `countDocuments` failure exits with
the handle set and the collections untouched. -/
def connectToMongo (st : DbState) (connectOk countThrows : Bool)
    (seedEmpThrows seedMirrorThrows : Bool) (t : Nat) : StartupResult :=
  if !connectOk then .exited st
  else
    let st1 : DbState := ⟨true, st.employees, st.companyList, st.nextId⟩
    if countThrows then .exited st1
    else if st1.employees.length = 0 then
      if seedEmpThrows then .exited st1
      else
        let st2 : DbState :=
          ⟨true, st1.employees ++ seedEmployees st1.nextId, st1.companyList,
            st1.nextId + 2⟩
        if seedMirrorThrows then .exited st2
        else .running
          ⟨true, st2.employees, st2.companyList ++ seedEntries t, st2.nextId⟩
    else .running st1

/-- One POST /employees request of a trace: its parsed body, the time at
which it is handled, and the outcomes of its two inserts. -/
structure PostReq where
  body : ReqBody
  time : Nat
  out1 : InsertOutcome
  out2 : InsertOutcome
deriving Repr, DecidableEq

/-- Run a sequence of POST /employees requests, threading the state. -/
def runPosts : DbState → List PostReq → DbState
  | st, [] => st
  | st, r :: rs => runPosts (postEmployees st r.body r.time r.out1 r.out2).state rs

/-- The Employee records a single POST request adds to the primary
collection (at most one: added exactly when the body passes validation
and the primary insert is applied). -/
def postContrib (nid : Nat) (r : PostReq) : List Employee :=
  if truthy r.body.name && truthy r.body.email && (r.out1 == .ok) then
    [⟨nid, r.body.name.getD "", r.body.email.getD "", r.body.department, some r.time⟩]
  else []

/-- The company_list entries a single POST request adds to the secondary
collection (added exactly when validation passes, the primary insert is
applied, and the mirror insert is applied). -/
def mirrorContrib (r : PostReq) : List CompanyListEntry :=
  if truthy r.body.name && truthy r.body.email
      && (r.out1 == .ok) && (r.out2 == .ok) then
    [⟨r.body.name.getD "", r.time⟩]
  else []

/-- All Employee records a trace of POSTs adds, with ids assigned from
`nid` onwards. -/
def postedEmployees (nid : Nat) : List PostReq → List Employee
  | [] => []
  | r :: rs =>
    postContrib nid r ++ postedEmployees (nid + (postContrib nid r).length) rs

/-- All company_list entries a trace of POSTs adds. -/
def postedEntries : List PostReq → List CompanyListEntry
  | [] => []
  | r :: rs => mirrorContrib r ++ postedEntries rs

/-! ## Helper lemmas -/

theorem postEmployees_state (st : DbState) (r : PostReq)
    (h : st.connected = true) :
    (postEmployees st r.body r.time r.out1 r.out2).state =
      ⟨true, st.employees ++ postContrib st.nextId r,
        st.companyList ++ mirrorContrib r,
        st.nextId + (postContrib st.nextId r).length⟩ := by
  cases st with
  | mk c emps cl nid =>
    subst h
    rcases r with ⟨b, t, o1, o2⟩
    by_cases hv : (truthy b.name && truthy b.email) = true
    · cases o1 <;> cases o2 <;>
        simp [postEmployees, postContrib, mirrorContrib, hv]
    · rw [Bool.not_eq_true] at hv
      cases o1 <;> cases o2 <;>
        simp [postEmployees, postContrib, mirrorContrib, hv]

theorem runPosts_spec (reqs : List PostReq) (st : DbState)
    (h : st.connected = true) :
    runPosts st reqs =
      ⟨true, st.employees ++ postedEmployees st.nextId reqs,
        st.companyList ++ postedEntries reqs,
        st.nextId + (postedEmployees st.nextId reqs).length⟩ := by
  induction reqs generalizing st with
  | nil =>
    cases st with
    | mk c emps cl nid => simp_all [runPosts, postedEmployees, postedEntries]
  | cons r rs ih =>
    have hstep := postEmployees_state st r h
    have hrec := ih ⟨true, st.employees ++ postContrib st.nextId r,
        st.companyList ++ mirrorContrib r,
        st.nextId + (postContrib st.nextId r).length⟩ rfl
    simp only [runPosts, hstep, hrec, postedEmployees, postedEntries]
    simp [List.append_assoc, Nat.add_assoc, List.length_append]

/-! ## Claim theorems -/

/-- C1: a POST /employees request with non-empty name and email
(department optional), made while the store is connected and with both
inserts succeeding, appends the full Employee record (with the
store-assigned id `st.nextId`) to the primary collection, appends a
derived entry with the same name (and, by the type of
`CompanyListEntry`, no email or department fields) to the secondary
collection, and returns status 201 carrying the created record. -/
theorem C1_post_success (st : DbState) (n e : String) (d : Option String)
    (t : Nat) (hc : st.connected = true) (hn : n ≠ "") (he : e ≠ "") :
    postEmployees st ⟨some n, some e, d⟩ t .ok .ok =
      ⟨201, some ⟨st.nextId, n, e, d, some t⟩,
        ⟨true, st.employees ++ [⟨st.nextId, n, e, d, some t⟩],
          st.companyList ++ [⟨n, t⟩], st.nextId + 1⟩⟩ := by
  simp [postEmployees, truthy, hc, hn, he]

/-- Witness for C1 at a concrete request. -/
theorem C1_post_success_witness :
    postEmployees ⟨true, [], [], 0⟩ ⟨some "Ann", some "ann@x.com", none⟩ 3 .ok .ok =
      ⟨201, some ⟨0, "Ann", "ann@x.com", none, some 3⟩,
        ⟨true, [⟨0, "Ann", "ann@x.com", none, some 3⟩], [⟨"Ann", 3⟩], 1⟩⟩ :=
  C1_post_success ⟨true, [], [], 0⟩ "Ann" "ann@x.com" none 3 rfl
    (by decide) (by decide)

/-- C2 counterexample: from the seeded state, a POST whose primary insert
succeeds but whose mirror insert throws returns status 500, yet GET
/employees afterwards returns the seeds PLUS the new record - so a
request that fails with 500 does contribute a record to the returned
set, contrary to the claim. -/
theorem C2_counterexample :
    (postEmployees ⟨true, seedEmployees 0, seedEntries 0, 2⟩
        ⟨some "Eve", some "eve@x.com", none⟩ 5 .ok .threw).status = 500 ∧
    (getEmployees (postEmployees ⟨true, seedEmployees 0, seedEntries 0, 2⟩
        ⟨some "Eve", some "eve@x.com", none⟩ 5 .ok .threw).state .ok).data =
      seedEmployees 0 ++ [⟨2, "Eve", "eve@x.com", none, some 5⟩] := by
  decide

/-- C2 (amended): after any trace of POST /employees requests from a
connected state, GET /employees returns exactly the initial records plus
one record per POST whose body passed validation and whose primary
insert was applied (this includes POSTs answered 500 because the mirror
insert threw), and GET /company-list returns exactly the initial entries
plus one entry per POST whose primary and mirror inserts were both
applied; POSTs answered 400 or 503 and POSTs whose primary insert failed
contribute nothing. -/
theorem C2_trace_contents (st : DbState) (reqs : List PostReq)
    (h : st.connected = true) :
    getEmployees (runPosts st reqs) .ok =
      ⟨200, st.employees ++ postedEmployees st.nextId reqs, runPosts st reqs⟩ ∧
    getCompanyList (runPosts st reqs) .ok =
      ⟨200, st.companyList ++ postedEntries reqs, runPosts st reqs⟩ := by
  have hr := runPosts_spec reqs st h
  constructor
  · rw [hr]
    simp [getEmployees]
  · rw [hr]
    simp [getCompanyList]

/-- Witness for C2 (amended) on a concrete two-request trace. -/
theorem C2_trace_contents_witness :
    getEmployees (runPosts ⟨true, [], [], 0⟩
        [⟨⟨some "Ann", some "a@b.c", none⟩, 1, .ok, .ok⟩,
         ⟨⟨none, none, none⟩, 2, .ok, .ok⟩]) .ok =
      ⟨200, [] ++ postedEmployees 0
          [⟨⟨some "Ann", some "a@b.c", none⟩, 1, .ok, .ok⟩,
           ⟨⟨none, none, none⟩, 2, .ok, .ok⟩],
        runPosts ⟨true, [], [], 0⟩
          [⟨⟨some "Ann", some "a@b.c", none⟩, 1, .ok, .ok⟩,
           ⟨⟨none, none, none⟩, 2, .ok, .ok⟩]⟩ ∧
    getCompanyList (runPosts ⟨true, [], [], 0⟩
        [⟨⟨some "Ann", some "a@b.c", none⟩, 1, .ok, .ok⟩,
         ⟨⟨none, none, none⟩, 2, .ok, .ok⟩]) .ok =
      ⟨200, [] ++ postedEntries
          [⟨⟨some "Ann", some "a@b.c", none⟩, 1, .ok, .ok⟩,
           ⟨⟨none, none, none⟩, 2, .ok, .ok⟩],
        runPosts ⟨true, [], [], 0⟩
          [⟨⟨some "Ann", some "a@b.c", none⟩, 1, .ok, .ok⟩,
           ⟨⟨none, none, none⟩, 2, .ok, .ok⟩]⟩ :=
  C2_trace_contents ⟨true, [], [], 0⟩
    [⟨⟨some "Ann", some "a@b.c", none⟩, 1, .ok, .ok⟩,
     ⟨⟨none, none, none⟩, 2, .ok, .ok⟩] rfl

/-- C3 counterexample: a successful first startup puts the two seed
records into the primary collection, and those records carry no
`addedDate` field (the seed objects in the source set only name, email
and department) - so not every Employee record in the primary collection
has a server-assigned `addedDate`. -/
theorem C3_counterexample :
    connectToMongo ⟨false, [], [], 0⟩ true false false false 0 =
      .running ⟨true, seedEmployees 0, seedEntries 0, 2⟩ ∧
    ((seedEmployees 0).all fun emp => emp.addedDate.isSome) = false := by
  decide

/-- C3 (amended): every Employee record that the add-employee endpoint
inserts carries the server-assigned `addedDate` of its request, but the
records inserted by startup seeding carry no `addedDate` field. -/
theorem postContrib_addedDate (nid : Nat) (r : PostReq) (emp : Employee)
    (h : emp ∈ postContrib nid r) : emp.addedDate = some r.time := by
  unfold postContrib at h
  split at h
  · simp only [List.mem_singleton] at h
    rw [h]
  · simp at h

theorem C3_addedDate :
    (∀ st b t o1 o2 (emp : Employee),
        emp ∈ (postEmployees st b t o1 o2).state.employees →
        emp ∉ st.employees → emp.addedDate = some t) ∧
    (∀ nid, ∀ emp ∈ seedEmployees nid, emp.addedDate = none) := by
  constructor
  · intro st b t o1 o2 emp hmem hnew
    cases hc : st.connected with
    | false => exact absurd (by simpa [postEmployees, hc] using hmem) hnew
    | true =>
      have hst : (postEmployees st b t o1 o2).state =
          ⟨true, st.employees ++ postContrib st.nextId ⟨b, t, o1, o2⟩,
            st.companyList ++ mirrorContrib ⟨b, t, o1, o2⟩,
            st.nextId + (postContrib st.nextId ⟨b, t, o1, o2⟩).length⟩ :=
        postEmployees_state st ⟨b, t, o1, o2⟩ hc
      rw [hst] at hmem
      rcases List.mem_append.mp hmem with h | h
      · exact absurd h hnew
      · exact postContrib_addedDate st.nextId ⟨b, t, o1, o2⟩ emp h
  · intro nid emp h
    simp only [seedEmployees, List.mem_cons, List.not_mem_nil, or_false] at h
    rcases h with h | h <;> rw [h]

/-- Witness for C3 (amended): the record created by a concrete POST
carries its request time as `addedDate`. -/
theorem C3_addedDate_witness :
    (⟨0, "Ann", "a@b.c", none, some 3⟩ : Employee).addedDate = some 3 :=
  C3_addedDate.1 ⟨true, [], [], 0⟩ ⟨some "Ann", some "a@b.c", none⟩ 3 .ok .ok
    ⟨0, "Ann", "a@b.c", none, some 3⟩ (by decide) (by decide)

/-- C4 counterexample: a POST with the name field missing, made while
the store is NOT connected, returns 503 rather than the claimed 400 -
the handler checks the connection handle before validating the body. -/
theorem C4_counterexample :
    (postEmployees ⟨false, [], [], 0⟩ ⟨none, some "a@b.c", none⟩ 0 .ok .ok).status
        = 503 ∧
    (postEmployees ⟨false, [], [], 0⟩ ⟨none, some "a@b.c", none⟩ 0 .ok .ok).status
        ≠ 400 := by
  decide

/-- C4 (amended): a POST whose body is missing the name field or the
email field, made while the store is connected, returns status 400 with
the state (both collections) unchanged; when not connected such a
request returns 503, and in either case no record is inserted. -/
theorem C4_missing_fields (st : DbState) (b : ReqBody) (t : Nat)
    (o1 o2 : InsertOutcome) (hm : b.name = none ∨ b.email = none) :
    (st.connected = true → postEmployees st b t o1 o2 = ⟨400, none, st⟩) ∧
    (st.connected = false → postEmployees st b t o1 o2 = ⟨503, none, st⟩) := by
  constructor
  · intro hc
    rcases hm with h | h <;> simp [postEmployees, truthy, hc, h]
  · intro hc
    simp [postEmployees, hc]

/-- Witness for C4 (amended) at a concrete missing-name request. -/
theorem C4_missing_fields_witness :
    postEmployees ⟨true, [], [], 0⟩ ⟨none, some "a@b.c", none⟩ 1 .ok .ok =
      ⟨400, none, ⟨true, [], [], 0⟩⟩ :=
  (C4_missing_fields ⟨true, [], [], 0⟩ ⟨none, some "a@b.c", none⟩ 1 .ok .ok
    (Or.inl rfl)).1 rfl

/-- C5 counterexample: with the connection succeeding, the primary
collection empty, the seed insert succeeding and the mirror insert
throwing, the startup sequencer DOES terminate the process (the single
catch block around connection and seeding calls process.exit(1)), and
the exited state still holds the two seed Employees - refuting both the
"terminates only if the connection fails" half of the claim and the
"mirror failure does not terminate" half. -/
theorem C5_counterexample :
    connectToMongo ⟨false, [], [], 0⟩ true false false true 7 =
      .exited ⟨true, seedEmployees 0, [], 2⟩ ∧
    (connectToMongo ⟨false, [], [], 0⟩ true false false true 7).isExited = true := by
  decide

/-- C5 (amended): the startup sequencer terminates the process exactly
when the connection fails, or the emptiness check of the primary
collection throws, or the primary collection is empty and one of the two
seeding inserts throws; when the mirror insert throws after a successful
seed insert, the process exits with the already-inserted seed Employees
retained (no rollback) and no mirror entries. -/
theorem C5_startup_exit :
    (∀ st cOk cnt e m t,
        (connectToMongo st cOk cnt e m t).isExited =
          (!cOk || cnt || (st.employees.length == 0 && (e || m)))) ∧
    (∀ st t, st.employees = [] →
        connectToMongo st true false false true t =
          .exited ⟨true, seedEmployees st.nextId, st.companyList, st.nextId + 2⟩) := by
  constructor
  · intro st cOk cnt e m t
    cases cOk with
    | false => simp [connectToMongo, StartupResult.isExited]
    | true =>
      cases cnt with
      | true => simp [connectToMongo, StartupResult.isExited]
      | false =>
        by_cases h0 : st.employees.length = 0
        · cases e <;> cases m <;>
            simp [connectToMongo, StartupResult.isExited, h0]
        · cases e <;> cases m <;>
            simp [connectToMongo, StartupResult.isExited, h0]
  · intro st t h
    simp [connectToMongo, h]

/-- Witness for C5 (amended): concrete mirror-throw startup exits with
the seeds retained. -/
theorem C5_startup_exit_witness :
    connectToMongo ⟨false, [], [], 5⟩ true false false true 9 =
      .exited ⟨true, seedEmployees 5, [], 7⟩ :=
  C5_startup_exit.2 ⟨false, [], [], 5⟩ 9 rfl

/-- C6: GET /health returns 200 exactly when the connection handle is
set and 503 exactly when it is not, leaves the state unchanged, and its
status depends only on the handle flag (not on the store contents), so
it never verifies liveness of the connection. -/
theorem C6_health (st st2 : DbState) :
    ((health st).1 = 200 ↔ st.connected = true) ∧
    ((health st).1 = 503 ↔ st.connected = false) ∧
    (health st).2 = st ∧
    (st.connected = st2.connected → (health st).1 = (health st2).1) := by
  cases hc : st.connected <;>
    refine ⟨by simp [health, hc], by simp [health, hc], by simp [health, hc], ?_⟩ <;>
    · intro h
      simp [health, hc, ← h]

/-- Witness for C6: two states with the same handle flag but different
collection contents get the same health status. -/
theorem C6_health_witness :
    (health ⟨true, seedEmployees 0, seedEntries 0, 2⟩).1 =
      (health ⟨true, [], [], 0⟩).1 :=
  (C6_health ⟨true, seedEmployees 0, seedEntries 0, 2⟩ ⟨true, [], [], 0⟩).2.2.2 rfl

/-- C7: on a first startup against an empty store (both collections
empty) with the connection and both seeding inserts succeeding, the
service ends up running with the primary collection holding exactly the
two seed Employees and the secondary collection holding exactly two
entries whose names match the seeds; and whenever the primary collection
is non-empty at startup, no seeding occurs (both collections are left
unchanged). -/
theorem C7_seeding :
    (∀ st t, st.employees = [] → st.companyList = [] →
        connectToMongo st true false false false t =
          .running ⟨true, seedEmployees st.nextId, seedEntries t, st.nextId + 2⟩ ∧
        (seedEmployees st.nextId).length = 2 ∧
        (seedEntries t).length = 2 ∧
        (seedEntries t).map CompanyListEntry.name =
          (seedEmployees st.nextId).map Employee.name) ∧
    (∀ st e m t, st.employees ≠ [] →
        connectToMongo st true false e m t =
          .running ⟨true, st.employees, st.companyList, st.nextId⟩) := by
  constructor
  · intro st t h1 h2
    refine ⟨?_, rfl, rfl, rfl⟩
    simp [connectToMongo, h1, h2]
  · intro st e m t h
    have hlen : st.employees.length ≠ 0 := by
      simpa [List.length_eq_zero] using h
    simp [connectToMongo, hlen]

/-- Witness for C7 at a concrete empty store and a concrete non-empty
store. -/
theorem C7_seeding_witness :
    connectToMongo ⟨false, [], [], 0⟩ true false false false 4 =
      .running ⟨true, seedEmployees 0, seedEntries 4, 2⟩ ∧
    connectToMongo ⟨false, seedEmployees 0, seedEntries 0, 2⟩ true false false false 4 =
      .running ⟨true, seedEmployees 0, seedEntries 0, 2⟩ :=
  ⟨(C7_seeding.1 ⟨false, [], [], 0⟩ 4 rfl rfl).1,
   C7_seeding.2 ⟨false, seedEmployees 0, seedEntries 0, 2⟩ false false 4 (by decide)⟩

/-- C8: GET /greet with no name query parameter answers 200 with
"Hello, World!"; with name=Ann it answers 200 with "Hello, Ann!"; and
for any non-empty name it answers 200 with "Hello, name!". -/
theorem C8_greet :
    greet none = (200, "Hello, World!") ∧
    greet (some "Ann") = (200, "Hello, Ann!") ∧
    ∀ s : String, s ≠ "" → greet (some s) = (200, "Hello, " ++ s ++ "!") := by
  refine ⟨by decide, by decide, ?_⟩
  intro s hs
  simp [greet, hs]

/-- Witness for C8 at a concrete non-empty name. -/
theorem C8_greet_witness : greet (some "Bob") = (200, "Hello, Bob!") :=
  C8_greet.2.2 "Bob" (by decide)

/-- C9 counterexample: a POST whose name field is present but equal to
the empty string, made while the store is NOT connected, returns 503
rather than the claimed 400 - the handler checks the connection handle
before validating the body. -/
theorem C9_counterexample :
    (postEmployees ⟨false, [], [], 0⟩ ⟨some "", some "a@b.c", none⟩ 0 .ok .ok).status
        = 503 ∧
    (postEmployees ⟨false, [], [], 0⟩ ⟨some "", some "a@b.c", none⟩ 0 .ok .ok).status
        ≠ 400 := by
  decide

/-- C9 (amended): a POST whose name or email field is present but equal
to the empty string, made while the store is connected, returns status
400 with the state (both collections) unchanged - presence validation
rejects present-but-empty required fields; when not connected such a
request returns 503, and in either case no record is inserted. -/
theorem C9_empty_fields (st : DbState) (b : ReqBody) (t : Nat)
    (o1 o2 : InsertOutcome) (hm : b.name = some "" ∨ b.email = some "") :
    (st.connected = true → postEmployees st b t o1 o2 = ⟨400, none, st⟩) ∧
    (st.connected = false → postEmployees st b t o1 o2 = ⟨503, none, st⟩) := by
  constructor
  · intro hc
    rcases hm with h | h <;> simp [postEmployees, truthy, hc, h]
  · intro hc
    simp [postEmployees, hc]

/-- Witness for C9 (amended) at a concrete empty-name request. -/
theorem C9_empty_fields_witness :
    postEmployees ⟨true, [], [], 0⟩ ⟨some "", some "a@b.c", none⟩ 1 .ok .ok =
      ⟨400, none, ⟨true, [], [], 0⟩⟩ :=
  (C9_empty_fields ⟨true, [], [], 0⟩ ⟨some "", some "a@b.c", none⟩ 1 .ok .ok
    (Or.inl rfl)).1 rfl

/-- C10: GET /employees and GET /company-list never modify the state
(and in particular neither collection), whether they answer 200, 500
or 503. -/
theorem C10_get_readonly (st : DbState) (fo : FetchOutcome) :
    (getEmployees st fo).state = st ∧ (getCompanyList st fo).state = st := by
  cases hc : st.connected <;> cases fo <;>
    simp [getEmployees, getCompanyList, hc]

end EmployeeService
